import Mathlib

/-!
Shallow embedding of the wakepro plugin core: the message-level wake
arbitration and LLM-request gates of src/main.py, the debounce merge
session of src/main.py, and the per-group similarity engine of
src/similarity.py.  Machine floats of the source are modelled as
rationals; external collaborators (the jieba segmenter, math.log,
math.sqrt, math.exp, the sentiment scorer, history retrieval, the
random draw) are parameters of the embedding.
-/

namespace WakePro

/-- Kernel of the Python substring test: does the second list occur as a
prefix of the first. -/
def pfxOf : List Char → List Char → Bool
  | [], _ => true
  | _ :: _, [] => false
  | a :: as, b :: bs => a == b && pfxOf as bs

/-- Does the second list occur as a contiguous sublist of the first.
Argument order: haystack, needle. -/
def hasSub : List Char → List Char → Bool
  | [], needle => pfxOf needle []
  | c :: t, needle => pfxOf needle (c :: t) || hasSub t needle

/-- The Python membership test on strings, `needle in hay` (substring
containment; the empty needle is contained in everything). -/
def pyIn (needle hay : String) : Bool :=
  hasSub hay.data needle.data

namespace Similarity

/-- The stopword set of src/similarity.py (class attribute STOP). -/
def STOP : List String :=
  ["的", "了", "在", "是", "和", "与", "或", "这", "那",
   "我", "你", "他", "她", "它"]

/-- External primitives used by src/similarity.py: the jieba segmenter
jieba.lcut, and the real functions math.log, math.sqrt, math.exp.  They
are parameters of the embedding; theorems state only the hypotheses on
them that the property at hand needs. -/
structure SimPrims where
  cut : String → List String
  mlog : Nat → ℚ
  msqrt : ℚ → ℚ
  mexp : ℚ → ℚ

/-- Per-group mutable state of the similarity engine: the rolling keyword
cache (a deque of maxlen 20) and the decayed term-importance table (a
defaultdict with default 0). -/
structure SimState where
  cache : List String
  weights : String → ℚ

/-- A fresh per-group state (empty cache, all weights 0). -/
def emptyState : SimState := ⟨[], fun _ => 0⟩

/-- Membership of a character in the CJK range of the source regexes,
  backslash-u4e00 to backslash-u9fa5. -/
def isCn (c : Char) : Bool := 0x4e00 ≤ c.toNat && c.toNat ≤ 0x9fa5

/-- The source regex anchored-CJK test on a word (at least one character,
all in the CJK range). -/
def allCn (w : String) : Bool := !w.data.isEmpty && w.data.all isCn

/-- Characters kept by the punctuation-stripping substitution of
_extract_keywords (the word class is modelled as ASCII alphanumerics plus
underscore; whitespace and the CJK range as in the source regex — exact on
every input evaluated in this file). -/
def keepChar (c : Char) : Bool :=
  c.isAlphanum || c == '_' || c.isWhitespace || isCn c

/-- The punctuation-stripping substitution of _extract_keywords. -/
def stripPunct (s : String) : String := String.mk (s.data.filter keepChar)

/-- Python len(w) or 1: the length of a word, with 0 replaced by 1. -/
def pyLen1 (w : String) : Nat := if w.length = 0 then 1 else w.length

/-- One append to a deque with a maximum length: the oldest entries are
evicted from the front when the capacity is exceeded. -/
def dequePush (cap : Nat) (xs : List String) (x : String) : List String :=
  let ys := xs ++ [x]
  if cap < ys.length then ys.drop (ys.length - cap) else ys

/-- _update_topic_cache of src/similarity.py: push the qualifying words
(not stopwords, longer than one character, purely CJK) into the cache,
then recompute the weight of every word currently cached as the maximum
of the decayed old weight (factor 0.95) and the fresh frequency-based
importance; weights of words not in the cache are left untouched. -/
def updateTopicCache (P : SimPrims) (st : SimState) (ws : List String) :
    SimState :=
  let cache2 := ws.foldl
    (fun c w =>
      if !(STOP.contains w) && decide (1 < w.length) && allCn w then
        dequePush 20 c w
      else c)
    st.cache
  { cache := cache2
    weights := fun w =>
      if cache2.contains w then
        max (st.weights w * (19 / 20))
          ((cache2.count w : ℚ) * (1 + P.mlog (pyLen1 w)))
      else st.weights w }

/-- Python str.isdigit on a word (nonempty and all digits). -/
def strIsDigit (w : String) : Bool := !w.data.isEmpty && w.data.all Char.isDigit

/-- Is the last character of a word a digit. -/
def lastIsDigit (w : String) : Bool :=
  match w.data.getLast? with
  | some c => c.isDigit
  | none => false

/-- The merge loop of _extract_keywords: a run of digit words, or of two
adjacent single-character words, is concatenated onto the previous entry. -/
def mergeWords (ws : List String) : List String :=
  ws.foldl
    (fun m w =>
      match m.getLast? with
      | none => [w]
      | some last =>
          if (strIsDigit w && lastIsDigit last) ||
              (last.length == 1 && w.length == 1) then
            m.dropLast ++ [last ++ w]
          else m ++ [w])
    []

/-- Truthiness of Python w.strip(): the word has at least one
non-whitespace character. -/
def stripTruthy (w : String) : Bool := w.data.any (fun c => !c.isWhitespace)

/-- _extract_keywords of src/similarity.py: strip punctuation, segment
with the (external) segmenter, drop blank and stopword tokens, merge
digit and single-character runs, and commit the result into the group
state via _update_topic_cache.  Returns the merged words together with
the updated state (the source mutates the shared per-group dict). -/
def extractKeywords (P : SimPrims) (st : SimState) (s : String) :
    List String × SimState :=
  let words := (P.cut (stripPunct s)).filter
    (fun w => stripTruthy w && !(STOP.contains w))
  let merged := mergeWords words
  (merged, updateTopicCache P st merged)

/-- Add a value onto the entry of a key in an association list, inserting
the key at the end if absent (Python defaultdict accumulation, insertion
order preserved). -/
def bumpA (m : List (String × ℚ)) (k : String) (d : ℚ) : List (String × ℚ) :=
  match m with
  | [] => [(k, d)]
  | kv :: rest =>
      if kv.1 == k then (kv.1, kv.2 + d) :: rest else kv :: bumpA rest k d

/-- The vector-building loop of _tokens, abstracted over the weight table
it reads: each word contributes 1 plus its table weight, each adjacent
bigram contributes 1.5, and the whole vector is divided by the total mass
(floored at 1). -/
def buildVec (wts : String → ℚ) (words : List String) :
    List (String × ℚ) :=
  let tf1 := words.foldl (fun m w => bumpA m w (1 + wts w)) []
  let tf2 := (List.zipWith (fun a b => a ++ b) words words.tail).foldl
    (fun m b => bumpA m b (3 / 2)) tf1
  let total := max (tf2.foldl (fun a kv => a + kv.2) 0) 1
  tf2.map (fun kv => (kv.1, kv.2 / total))

/-- _tokens of src/similarity.py.  The source first runs
_extract_keywords, which mutates the shared per-group dict, and then
reads the weights out of that same dict; hence the vector is built from
the post-update weight table. -/
def tokens (P : SimPrims) (st : SimState) (s : String) :
    List (String × ℚ) × SimState :=
  let ws := (extractKeywords P st s).1
  let st2 := (extractKeywords P st s).2
  (buildVec st2.weights ws, st2)

/-- Modelled from the spec: the vector the specification describes, built
from the group statistics as they stood before the update of the call
itself.  Used only to compare against the vector the source builds. -/
def tokensPreStats (P : SimPrims) (st : SimState) (s : String) :
    List (String × ℚ) :=
  buildVec st.weights (extractKeywords P st s).1

/-- Lookup with default 0 in an association list (Python dict.get(w, 0)). -/
def lookupD (m : List (String × ℚ)) (k : String) : ℚ :=
  match m.find? (fun kv => kv.1 == k) with
  | some kv => kv.2
  | none => 0

/-- The key set union of the dot-product loop of cosine: the keys of the
first vector followed by the keys of the second not already present. -/
def unionKeys (v1 v2 : List (String × ℚ)) : List String :=
  let k1 := v1.map Prod.fst
  k1 ++ (v2.map Prod.fst).filter (fun w => !k1.contains w)

/-- cosine of src/similarity.py: build both vectors (each build mutating
the group state), then form the boosted dot product — terms present with
positive mass in both vectors are scaled by 2 plus the current (post both
updates) weight — divide by the product of norms plus 1e-8, and squash
through the logistic function 1/(1+exp(-8(raw-0.6))).  Returns the score
together with the final group state. -/
def cosine (P : SimPrims) (st : SimState) (a b : String) : ℚ × SimState :=
  let v1 := (tokens P st a).1
  let st1 := (tokens P st a).2
  let v2 := (tokens P st1 b).1
  let st2 := (tokens P st1 b).2
  let dot := (unionKeys v1 v2).foldl
    (fun acc w =>
      let x := lookupD v1 w
      let y := lookupD v2 w
      if 0 < x && 0 < y then acc + x * y * (2 + st2.weights w)
      else acc + x * y)
    0
  let n1 := P.msqrt (v1.foldl (fun a kv => a + kv.2 * kv.2) 0)
  let n2 := P.msqrt (v2.foldl (fun a kv => a + kv.2 * kv.2) 0)
  let raw := dot / (n1 * n2 + 1 / 100000000)
  (1 / (1 + P.mexp (-8 * (raw - 3 / 5))), st2)

end Similarity

/-- MemberState of src/main.py (the asyncio lock is a pure synchronization
handle and carries no data; it is omitted). -/
structure Member where
  uid : String
  silence_until : ℚ := 0
  last_request : ℚ := 0
  last_response : ℚ := 0
  in_merging : Bool := false
deriving DecidableEq, Repr

/-- GroupState of src/main.py; the members dict is an association list in
insertion order. -/
structure Group where
  gid : String
  members : List (String × Member) := []
  shutup_until : ℚ := 0
deriving DecidableEq, Repr

/-- Dict lookup in a members map. -/
def getM (ms : List (String × Member)) (u : String) : Option Member :=
  (ms.find? (fun kv => kv.1 == u)).map Prod.snd

/-- Dict write in a members map: replace the entry of the key, appending
at the end when the key is new (Python dict insertion order). -/
def setM : List (String × Member) → String → Member → List (String × Member)
  | [], u, m => [(u, m)]
  | kv :: rest, u, m =>
      if kv.1 == u then (kv.1, m) :: rest else kv :: setM rest u m

/-- Dict write in the groups map of StateManager. -/
def setG : List (String × Group) → String → Group → List (String × Group)
  | [], gid, g => [(gid, g)]
  | kv :: rest, gid, g =>
      if kv.1 == gid then (kv.1, g) :: rest else kv :: setG rest gid g

/-- StateManager.get_group of src/main.py: get-or-create.  Returns the
group together with the possibly extended groups map; the creation is the
first thing on_group_msg does, before any filtering. -/
def getGroup (gs : List (String × Group)) (gid : String) :
    Group × List (String × Group) :=
  match gs.find? (fun kv => kv.1 == gid) with
  | some kv => (kv.2, gs)
  | none => ({ gid := gid }, gs ++ [(gid, { gid := gid })])

/-- The AstrBot built-in command list BUILT_CMDS of src/main.py. -/
def BUILT_CMDS : List String :=
  ["llm", "t2i", "tts", "sid", "op", "wl",
   "dashboard_update", "alter_cmd", "provider", "model",
   "plugin", "plugin ls", "new", "switch", "rename",
   "del", "reset", "history", "persona", "tool ls",
   "key", "websearch", "help"]

/-- Configuration read by on_group_msg.  Numeric thresholds are rationals
with 0 meaning falsy (feature disabled); wake_extend is the integer
seconds value int(conf or 0). -/
structure MsgConf where
  group_whitelist : List String := []
  group_blacklist : List String := []
  user_blacklist : List String := []
  block_builtin : Bool := false
  mention_wake : List String := []
  wake_extend : ℤ := 0
  relevant_wake : ℚ := 0
  ask_wake : ℚ := 0
  bored_wake : ℚ := 0
  prob_wake : ℚ := 0
  wake_forbidden_words : List String := []

/-- External collaborators consulted by on_group_msg: the retrieved
history (None degrades to the empty list), the observed similarity scores
of the stateful engine, the two sentiment scores and the random draw. -/
structure Oracle where
  history : List String
  simi : String → String → ℚ
  ask : String → ℚ
  bored : String → ℚ
  rand : ℚ

/-- The inbound group-message event as on_group_msg sees it, including
the platform-set explicit address flag is_at_or_wake_command. -/
structure GEvent where
  msg : String
  uid : String
  gid : String
  bid : String
  isAdmin : Bool
  is_at_or_wake_command : Bool
deriving DecidableEq, Repr

/-- Which return of on_group_msg was taken. -/
inductive MsgOutcome where
  | emptyMsg | selfMsg | notWhitelisted | blacklistedGroup
  | blacklistedUser | builtinBlocked | forbidden | proceed
deriving DecidableEq, Repr

/-- Result of on_group_msg: the groups map after the handler, whether the
event was consumed (stop_event), and the value of the wake flag
is_at_or_wake_command on the event after the handler. -/
structure GRes where
  groups : List (String × Group)
  stopped : Bool
  wakeFlag : Bool
  outcome : MsgOutcome
deriving DecidableEq, Repr

/-- on_group_msg of src/main.py.  The group entry is created (get-or-
create) before every filter; then the early-return filter chain runs
(empty text, self message, whitelist, group blacklist, user blacklist,
built-in command block); then the member entry is created and the wake
signals are evaluated in order (explicit address, keyword mention, wake
extension, topic relevance over the retrieved history, ask score, bored
score, probability); then the forbidden-word check consumes and returns;
finally a woken event gets its flag set. -/
def onGroupMsg (conf : MsgConf) (orc : Oracle) (now : ℚ)
    (gs : List (String × Group)) (ev : GEvent) : GRes :=
  let g := (getGroup gs ev.gid).1
  let gs1 := (getGroup gs ev.gid).2
  if ev.msg = "" then ⟨gs1, false, ev.is_at_or_wake_command, .emptyMsg⟩
  else if ev.uid = ev.bid then
    ⟨gs1, false, ev.is_at_or_wake_command, .selfMsg⟩
  else if conf.group_whitelist ≠ [] ∧ ev.gid ∉ conf.group_whitelist then
    ⟨gs1, false, ev.is_at_or_wake_command, .notWhitelisted⟩
  else if ev.gid ∈ conf.group_blacklist ∧ ev.isAdmin = false then
    ⟨gs1, true, ev.is_at_or_wake_command, .blacklistedGroup⟩
  else if ev.uid ∈ conf.user_blacklist then
    ⟨gs1, true, ev.is_at_or_wake_command, .blacklistedUser⟩
  else if conf.block_builtin = true ∧ ev.isAdmin = false ∧
      ev.msg ∈ BUILT_CMDS then
    ⟨gs1, true, ev.is_at_or_wake_command, .builtinBlocked⟩
  else
    let member := (getM g.members ev.uid).getD { uid := ev.uid }
    let g2 :=
      if (getM g.members ev.uid).isSome then g
      else { g with members := setM g.members ev.uid { uid := ev.uid } }
    let gs2 := setG gs1 ev.gid g2
    let w1 := ev.is_at_or_wake_command ||
      (!conf.mention_wake.isEmpty &&
        (conf.mention_wake.filter (fun n => n != "")).any
          (fun n => pyIn n ev.msg))
    let w2 := w1 || (decide (conf.wake_extend ≠ 0) &&
      decide (now - member.last_response ≤ (conf.wake_extend : ℚ)))
    let w3 := w2 || (decide (conf.relevant_wake ≠ 0) &&
      !orc.history.isEmpty &&
      orc.history.any (fun b => decide (conf.relevant_wake < orc.simi ev.msg b)))
    let w4 := w3 || (decide (conf.ask_wake ≠ 0) &&
      decide (conf.ask_wake < orc.ask ev.msg))
    let w5 := w4 || (decide (conf.bored_wake ≠ 0) &&
      decide (conf.bored_wake < orc.bored ev.msg))
    let wake := w5 || (decide (conf.prob_wake ≠ 0) &&
      decide (orc.rand < conf.prob_wake))
    if conf.wake_forbidden_words ≠ [] ∧ ev.isAdmin = false ∧
        (∃ w ∈ conf.wake_forbidden_words, pyIn w ev.msg = true) then
      ⟨gs2, true, ev.is_at_or_wake_command, .forbidden⟩
    else
      ⟨gs2, false, wake, .proceed⟩

/-- Configuration read by on_llm_request and the merge session. -/
structure LlmConf where
  shutup : ℚ := 0
  insult : ℚ := 0
  ai : ℚ := 0
  silence_multiple : ℚ := 0
  request_cd : ℚ := 0
  merge_delay : ℚ := 0

/-- The three sentiment scores the request-level handler takes on the
current message (shut, insult, is_ai of the external scorer). -/
structure Scores where
  shut : ℚ := 0
  insult : ℚ := 0
  isAi : ℚ := 0

/-- Which return of on_llm_request was taken. -/
inductive LlmOutcome where
  | noGid | skipMerging | shutupTrig | aiTrig
  | shutupGate | silenceGate | cdGate | proceed
deriving DecidableEq, Repr

/-- The body of on_llm_request after the member entry exists
(src/main.py lines 326-402, the merge spawn of step 3 abstracted into
the proceed outcome; the merge session itself is collectMessages below).
Returns the updated group, whether the event was consumed, and the
return point taken.  Order of the source: in_merging short-circuit;
shutup trigger (consumes); insult trigger (sets silence, does not
return); AI trigger (sets silence, consumes); group shutup gate
(no privilege bypass); per-user silence gate (admins bypass); request
cooldown gate; record last_request and proceed. -/
def llmCore (conf : LlmConf) (sc : Scores) (now : ℚ) (uid : String)
    (isAdmin : Bool) (g : Group) : Group × Bool × LlmOutcome :=
  let m := (getM g.members uid).getD { uid := uid }
  if m.in_merging = true then (g, false, .skipMerging)
  else if conf.shutup ≠ 0 ∧ conf.shutup < sc.shut then
    ({ g with shutup_until := now + sc.shut * conf.silence_multiple },
      true, .shutupTrig)
  else
    let m1 :=
      if conf.insult ≠ 0 ∧ conf.insult < sc.insult then
        { m with silence_until := now + sc.insult * conf.silence_multiple }
      else m
    let g1 := { g with members := setM g.members uid m1 }
    if conf.ai ≠ 0 ∧ conf.ai < sc.isAi then
      let m2 := { m1 with silence_until := now + sc.isAi * conf.silence_multiple }
      ({ g1 with members := setM g1.members uid m2 }, true, .aiTrig)
    else if now < g1.shutup_until then (g1, true, .shutupGate)
    else if isAdmin = false ∧ now < m1.silence_until then
      (g1, true, .silenceGate)
    else if 0 < conf.request_cd ∧ now - m1.last_request < conf.request_cd then
      (g1, true, .cdGate)
    else
      let m3 := { m1 with last_request := now }
      ({ g1 with members := setM g1.members uid m3 }, false, .proceed)

/-- Result of on_llm_request over the groups map. -/
structure LRes where
  groups : List (String × Group)
  stopped : Bool
  outcome : LlmOutcome
deriving DecidableEq, Repr

/-- on_llm_request of src/main.py as a whole: the empty gid or uid early
return, the get-or-create of group and member, and llmCore; the mutated
group object is written back to the map (the source mutates it through
the shared reference). -/
def onLlmRequest (conf : LlmConf) (sc : Scores) (now : ℚ)
    (gs : List (String × Group)) (gid uid : String) (isAdmin : Bool) : LRes :=
  if gid = "" ∨ uid = "" then ⟨gs, false, .noGid⟩
  else
    let g0 := (getGroup gs gid).1
    let gs1 := (getGroup gs gid).2
    let g1 :=
      if (getM g0.members uid).isSome then g0
      else { g0 with members := setM g0.members uid { uid := uid } }
    let gs2 := setG gs1 gid g1
    let r := llmCore conf sc now uid isAdmin g1
    ⟨setG gs2 gid r.1, r.2.1, r.2.2⟩

/-- The hard cap MAX_MERGE_MESSAGES of src/main.py. -/
def MAX_MERGE_MESSAGES : Nat := 10

/-- A live merge session of _handle_message_merge: the buffered texts in
arrival order and the absolute deadline of the pending debounce timer. -/
structure Sess where
  buffer : List String
  deadline : ℚ
deriving DecidableEq, Repr

/-- An event as the collect_messages closure sees it. -/
structure MEvent where
  uid : String
  gid : String
  msg : String
deriving DecidableEq, Repr

/-- Which return of collect_messages was taken. -/
inductive CollectOut where
  | otherUser | otherGroup | dupFirst | capStop | cdBlocked | collected
deriving DecidableEq, Repr

/-- Result of one collect_messages step: the session after the step,
whether the incoming event was consumed (stop_event), and the return
point taken. -/
structure CRes where
  sess : Sess
  evStopped : Bool
  out : CollectOut
deriving DecidableEq, Repr

/-- The collect_messages closure of _handle_message_merge
(src/main.py lines 236-284), one incoming event: skip other users and
other groups; when exactly one message is buffered and the text equals
it, re-arm the timer for the full delay without growing the buffer;
when the buffer has reached the cap, stop the session (no append, no
consumption of the incoming event); when the per-user request cooldown
blocks, consume the event alone (no append, no re-arm); otherwise
append, consume, and re-arm for the full delay. -/
def collectMessages (conf : LlmConf) (uid gid : String) (lastRequest : ℚ)
    (s : Sess) (ev : MEvent) (now : ℚ) : CRes :=
  if ev.uid ≠ uid then ⟨s, false, .otherUser⟩
  else if ev.gid ≠ gid then ⟨s, false, .otherGroup⟩
  else if s.buffer.length = 1 ∧ ev.msg = s.buffer.headD "" then
    ⟨{ s with deadline := now + conf.merge_delay }, false, .dupFirst⟩
  else if MAX_MERGE_MESSAGES ≤ s.buffer.length then ⟨s, false, .capStop⟩
  else if 0 < conf.request_cd ∧ now - lastRequest < conf.request_cd then
    ⟨s, true, .cdBlocked⟩
  else
    ⟨⟨s.buffer ++ [ev.msg], now + conf.merge_delay⟩, true, .collected⟩

/-- The timer-expiry path of _handle_message_merge (the except branch):
when more than one message is buffered, the first event text becomes the
space-separated join of the buffer; otherwise it is left unchanged. -/
def finalizeTimeout (buffer : List String) (orig : String) : String :=
  if 1 < buffer.length then String.intercalate " " buffer else orig

/-- The forced-stop path of _handle_message_merge: controller.stop makes
the awaited session return without raising, so no join is performed and
the first event text is left unchanged. -/
def finalizeForcedStop (_buffer : List String) (orig : String) : String :=
  orig

/-- An oracle whose external signals are all inert (no history, zero
scores, a random draw of 1); used for concrete evaluations whose path
never consults the oracle. -/
def orcZ : Oracle := ⟨[], fun _ _ => 0, fun _ => 0, fun _ => 0, 1⟩

/-- Concrete stand-ins for the external primitives of the similarity
engine at the points evaluated in this file: the segmenter answers as
jieba does on the two evaluated texts (the blank token is produced and
then filtered, as in the source), mlog 2 is a rational approximation of
math.log 2, msqrt is the identity (exact at 0, the only point used), and
mexp is a rational approximation of math.exp at 4.8, the only point
used; every stated fact needs only its positivity. -/
def simPrimsC : Similarity.SimPrims :=
  { cut := fun s =>
      if s = "哈哈 呀呀" then ["哈哈", " ", "呀呀"]
      else if s = "嘻嘻" then ["嘻嘻"]
      else []
    mlog := fun n => if n = 2 then 6931 / 10000 else 0
    msqrt := fun x => x
    mexp := fun _ => 12151 / 100 }

/-- A helper session state of ten buffered messages at the merge cap. -/
def sessTen : Sess :=
  ⟨["m1", "m2", "m3", "m4", "m5", "m6", "m7", "m8", "m9", "m10"], 100⟩

/-- Writing back the value a key already maps to leaves the map
unchanged. -/
theorem setG_self (gs : List (String × Group)) (k : String) (g : Group)
    (h : gs.find? (fun kv => kv.1 == k) = some (k, g)) :
    setG gs k g = gs := by
  induction gs with
  | nil => simp [List.find?] at h
  | cons kv rest ih =>
      by_cases hk : kv.1 == k
      · simp only [List.find?_cons, hk, if_pos] at h
        have hkv : kv = (k, g) := Option.some.inj h
        subst hkv
        simp [setG]
      · have hk2 : (kv.1 == k) = false := by simpa using hk
        simp only [List.find?_cons, hk2, Bool.false_eq_true, if_false] at h
        simp only [setG, hk2, Bool.false_eq_true, if_false]
        rw [ih h]

/-- Claim C6: during an open merge session, a follow-up message from the
same user that is blocked by the per-user request cooldown is dropped
alone: it is consumed, it is not appended to the buffer, and the pending
debounce deadline is left unchanged. -/
theorem c6_cooldown_no_extend (conf : LlmConf) (uid gid : String)
    (lr : ℚ) (s : Sess) (ev : MEvent) (now : ℚ)
    (hu : ev.uid = uid) (hg : ev.gid = gid)
    (hdup : ¬(s.buffer.length = 1 ∧ ev.msg = s.buffer.headD ""))
    (hcap : s.buffer.length < MAX_MERGE_MESSAGES)
    (hcd : 0 < conf.request_cd)
    (hlt : now - lr < conf.request_cd) :
    collectMessages conf uid gid lr s ev now = ⟨s, true, .cdBlocked⟩ := by
  unfold collectMessages
  rw [if_neg (show ¬ev.uid ≠ uid from fun h => h hu),
    if_neg (show ¬ev.gid ≠ gid from fun h => h hg),
    if_neg hdup, if_neg (not_le.mpr hcap), if_pos ⟨hcd, hlt⟩]

/-- Witness for c6_cooldown_no_extend at a concrete input. -/
theorem c6_cooldown_no_extend_witness :
    collectMessages { merge_delay := 2, request_cd := 10 } "U" "G" 48
      ⟨["a", "b"], 7⟩ ⟨"U", "G", "c"⟩ 50 =
      ⟨⟨["a", "b"], 7⟩, true, .cdBlocked⟩ :=
  c6_cooldown_no_extend { merge_delay := 2, request_cd := 10 } "U" "G" 48
    ⟨["a", "b"], 7⟩ ⟨"U", "G", "c"⟩ 50 rfl rfl (by decide) (by decide)
    (by norm_num) (by norm_num)

/-- Claim C2, counterexample: with ten messages buffered, the arrival of
an eleventh stops the session immediately, but the forced-stop path
performs no join — the first event keeps its single original text, which
differs from the space-separated join the claim asserts. -/
theorem c2_cap_force_close_cex :
    collectMessages { merge_delay := 2 } "U" "G" 0 sessTen
      ⟨"U", "G", "m11"⟩ 50 = ⟨sessTen, false, .capStop⟩ ∧
    finalizeForcedStop sessTen.buffer "m1" = "m1" ∧
    finalizeForcedStop sessTen.buffer "m1" ≠
      String.intercalate " " sessTen.buffer := by
  refine ⟨?_, rfl, by decide⟩
  norm_num [collectMessages, sessTen, MAX_MERGE_MESSAGES]

/-- Claim C2, amended: when the buffer has reached the cap of 10 and a
further same-user same-group message arrives, the session is stopped
immediately (without waiting for the timer) with the buffer and deadline
untouched, the over-cap message is neither folded in nor consumed, and
the forced-stop finalization performs no join: the first event keeps its
original text. -/
theorem c2_cap_force_close (conf : LlmConf) (uid gid : String) (lr : ℚ)
    (s : Sess) (ev : MEvent) (now : ℚ)
    (hu : ev.uid = uid) (hg : ev.gid = gid)
    (hdup : ¬(s.buffer.length = 1 ∧ ev.msg = s.buffer.headD ""))
    (hcap : MAX_MERGE_MESSAGES ≤ s.buffer.length) :
    collectMessages conf uid gid lr s ev now = ⟨s, false, .capStop⟩ ∧
    finalizeForcedStop s.buffer (s.buffer.headD "") = s.buffer.headD "" := by
  refine ⟨?_, rfl⟩
  unfold collectMessages
  rw [if_neg (show ¬ev.uid ≠ uid from fun h => h hu),
    if_neg (show ¬ev.gid ≠ gid from fun h => h hg),
    if_neg hdup, if_pos hcap]

/-- Witness for c2_cap_force_close at a concrete input. -/
theorem c2_cap_force_close_witness :
    collectMessages { merge_delay := 2 } "U" "G" 0 sessTen
      ⟨"U", "G", "m11"⟩ 50 = ⟨sessTen, false, .capStop⟩ ∧
    finalizeForcedStop sessTen.buffer (sessTen.buffer.headD "") =
      sessTen.buffer.headD "" :=
  c2_cap_force_close { merge_delay := 2 } "U" "G" 0 sessTen
    ⟨"U", "G", "m11"⟩ 50 rfl rfl (by decide) (by decide)

/-- Claim C9, counterexample: with two messages buffered, an incoming
message byte-identical to the first buffered text is appended (the
buffer grows) instead of merely re-arming the timer; the protection only
covers the single-seed case. -/
theorem c9_dup_regardless_cex :
    collectMessages { merge_delay := 2 } "U" "G" 0 ⟨["a", "b"], 7⟩
      ⟨"U", "G", "a"⟩ 50 = ⟨⟨["a", "b", "a"], 52⟩, true, .collected⟩ ∧
    (["a", "b", "a"] : List String) ≠ ["a", "b"] := by
  refine ⟨?_, by decide⟩
  norm_num [collectMessages, MAX_MERGE_MESSAGES]

/-- Claim C9, amended: only while exactly one message (the seed) is
buffered does an incoming same-user same-group message byte-identical to
it re-arm the debounce timer for the full delay without growing the
buffer; the event is not consumed on this path. -/
theorem c9_dup_first_only (conf : LlmConf) (uid gid : String) (lr : ℚ)
    (t : String) (d : ℚ) (ev : MEvent) (now : ℚ)
    (hu : ev.uid = uid) (hg : ev.gid = gid) (hm : ev.msg = t) :
    collectMessages conf uid gid lr ⟨[t], d⟩ ev now =
      ⟨⟨[t], now + conf.merge_delay⟩, false, .dupFirst⟩ := by
  unfold collectMessages
  rw [if_neg (show ¬ev.uid ≠ uid from fun h => h hu),
    if_neg (show ¬ev.gid ≠ gid from fun h => h hg),
    if_pos (show ([t] : List String).length = 1 ∧ ev.msg = ([t] : List String).headD ""
      from ⟨rfl, hm⟩)]

/-- Witness for c9_dup_first_only at a concrete input. -/
theorem c9_dup_first_only_witness :
    collectMessages { merge_delay := 2 } "U" "G" 0 ⟨["a"], 7⟩
      ⟨"U", "G", "a"⟩ 50 = ⟨⟨["a"], 52⟩, false, .dupFirst⟩ := by
  have h := c9_dup_first_only { merge_delay := 2 } "U" "G" 0 "a" 7
    ⟨"U", "G", "a"⟩ 50 rfl rfl rfl
  rw [h]
  norm_num

/-- Claim C3, counterexample: with a whitelist configured and the group
absent from it the message is dropped without consumption, but the
handler is not a pure no-op — the group-state entry is created by the
get-or-create that runs before the whitelist check (here the groups map
grows from empty to one entry). -/
theorem c3_whitelist_noop_cex :
    onGroupMsg { group_whitelist := ["G1"] } orcZ 0 []
        ⟨"hi", "U", "G2", "B", false, false⟩ =
      ⟨[("G2", { gid := "G2" })], false, false, .notWhitelisted⟩ ∧
    ([("G2", { gid := "G2" })] : List (String × Group)) ≠ [] := by
  refine ⟨?_, by decide⟩
  norm_num [onGroupMsg, getGroup, orcZ, List.find?]
  decide

/-- Claim C3, amended: a group message whose group is absent from a
configured whitelist is dropped with no consumption signal, the wake
flag untouched, and no member-state creation or modification; the only
state effect is the lazy get-or-create of the (empty) group entry, which
runs before the whitelist check, and when the group entry already exists
the groups map is left fully unchanged. -/
theorem c3_whitelist_drop (conf : MsgConf) (orc : Oracle) (now : ℚ)
    (gs : List (String × Group)) (ev : GEvent)
    (hwl : conf.group_whitelist ≠ [])
    (habs : ev.gid ∉ conf.group_whitelist)
    (hmsg : ev.msg ≠ "") (hself : ev.uid ≠ ev.bid) :
    onGroupMsg conf orc now gs ev =
      ⟨(getGroup gs ev.gid).2, false, ev.is_at_or_wake_command,
        .notWhitelisted⟩ ∧
    ((gs.find? (fun kv => kv.1 == ev.gid)).isSome = true →
      (getGroup gs ev.gid).2 = gs) := by
  constructor
  · unfold onGroupMsg
    rw [if_neg hmsg, if_neg hself, if_pos ⟨hwl, habs⟩]
  · intro hsome
    obtain ⟨kv, hkv⟩ := Option.isSome_iff_exists.mp hsome
    unfold getGroup
    rw [hkv]

/-- Witness for c3_whitelist_drop at a concrete input whose group entry
already exists. -/
theorem c3_whitelist_drop_witness :
    onGroupMsg { group_whitelist := ["G1"] } orcZ 0
        [("G2", { gid := "G2" })] ⟨"hi", "U", "G2", "B", false, false⟩ =
      ⟨(getGroup [("G2", { gid := "G2" })] "G2").2, false, false,
        .notWhitelisted⟩ ∧
    ((([("G2", { gid := "G2" })] : List (String × Group)).find?
        (fun kv => kv.1 == "G2")).isSome = true →
      (getGroup [("G2", { gid := "G2" })] "G2").2 =
        [("G2", { gid := "G2" })]) := by
  have h := c3_whitelist_drop { group_whitelist := ["G1"] } orcZ 0
    [("G2", { gid := "G2" })] ⟨"hi", "U", "G2", "B", false, false⟩
    (by decide) (by decide) (by decide) (by decide)
  exact ⟨h.1, h.2⟩

/-- Claim C1, counterexample: a non-privileged message carrying both a
configured forbidden word and the platform explicit-address flag is
consumed, but the wake flag is not false afterwards — the handler
returns before its own flag-marking and leaves the platform-set flag at
true. -/
theorem c1_forbidden_explicit_mention_cex :
    (onGroupMsg { wake_forbidden_words := ["傻"] } orcZ 0 []
        ⟨"你真傻", "U", "G", "B", false, true⟩).stopped = true ∧
    (onGroupMsg { wake_forbidden_words := ["傻"] } orcZ 0 []
        ⟨"你真傻", "U", "G", "B", false, true⟩).wakeFlag = true := by
  constructor <;>
  · norm_num [onGroupMsg, getGroup, orcZ, getM, setM, List.find?, pyIn,
      hasSub, pfxOf, BUILT_CMDS]
    decide

/-- Claim C1, amended: a group message from a non-privileged sender
containing a configured forbidden word is consumed (event stopped)
whatever the other wake signals say, before the handler can mark the
wake flag; the flag is therefore left at its incoming value — false
unless the platform had already set it for an explicit mention or
command, in which case it stays true while the event is stopped all the
same. -/
theorem c1_forbidden_word_overrides (conf : MsgConf) (orc : Oracle)
    (now : ℚ) (gs : List (String × Group)) (ev : GEvent)
    (hforb : conf.wake_forbidden_words ≠ [])
    (hadm : ev.isAdmin = false)
    (hword : ∃ w ∈ conf.wake_forbidden_words, pyIn w ev.msg = true)
    (hmsg : ev.msg ≠ "") (hself : ev.uid ≠ ev.bid)
    (hwl : conf.group_whitelist = [] ∨ ev.gid ∈ conf.group_whitelist)
    (hbl : ev.gid ∉ conf.group_blacklist)
    (hub : ev.uid ∉ conf.user_blacklist)
    (hbc : conf.block_builtin = false ∨ ev.msg ∉ BUILT_CMDS) :
    (onGroupMsg conf orc now gs ev).stopped = true ∧
    (onGroupMsg conf orc now gs ev).wakeFlag = ev.is_at_or_wake_command ∧
    (onGroupMsg conf orc now gs ev).outcome = .forbidden := by
  have h3 : ¬(conf.group_whitelist ≠ [] ∧ ev.gid ∉ conf.group_whitelist) := by
    rcases hwl with h | h
    · exact fun hc => hc.1 h
    · exact fun hc => hc.2 h
  have h4 : ¬(ev.gid ∈ conf.group_blacklist ∧ ev.isAdmin = false) :=
    fun hc => hbl hc.1
  have h6 : ¬(conf.block_builtin = true ∧ ev.isAdmin = false ∧
      ev.msg ∈ BUILT_CMDS) := by
    rcases hbc with h | h
    · intro hc
      rw [h] at hc
      exact Bool.false_ne_true hc.1
    · exact fun hc => h hc.2.2
  unfold onGroupMsg
  rw [if_neg hmsg, if_neg hself, if_neg h3, if_neg h4, if_neg hub,
    if_neg h6, if_pos ⟨hforb, hadm, hword⟩]
  exact ⟨rfl, rfl, rfl⟩

/-- Witness for c1_forbidden_word_overrides at a concrete input without
the platform flag: consumed and the wake flag false. -/
theorem c1_forbidden_word_overrides_witness :
    (onGroupMsg { wake_forbidden_words := ["傻"] } orcZ 0 []
        ⟨"你真傻", "U", "G", "B", false, false⟩).stopped = true ∧
    (onGroupMsg { wake_forbidden_words := ["傻"] } orcZ 0 []
        ⟨"你真傻", "U", "G", "B", false, false⟩).wakeFlag = false ∧
    (onGroupMsg { wake_forbidden_words := ["傻"] } orcZ 0 []
        ⟨"你真傻", "U", "G", "B", false, false⟩).outcome = .forbidden :=
  c1_forbidden_word_overrides { wake_forbidden_words := ["傻"] } orcZ 0 []
    ⟨"你真傻", "U", "G", "B", false, false⟩
    (by decide) rfl ⟨"傻", by decide, by decide⟩ (by decide) (by decide)
    (Or.inl rfl) (by decide) (by decide) (Or.inl rfl)

/-- Claim C4: the insult trigger is meant to set the silence but let the
triggering message through (the source comments say the bot is allowed
one rebuttal turn); in fact, having set silence_until to the future, a
non-privileged triggering message falls straight into the per-user
silence gate just below and is consumed.  Evaluated at the failing
input: insult threshold one half, score 1, multiplier 60, fresh member,
now 1000 — silence_until becomes 1060 and the event is stopped at the
silence gate. -/
theorem c4_insult_trigger_consumed_bug :
    onLlmRequest { insult := 1 / 2, silence_multiple := 60 } { insult := 1 }
        1000 [("G", { gid := "G", members := [("U", { uid := "U" })] })]
        "G" "U" false =
      ⟨[("G", { gid := "G", members := [("U", { uid := "U", silence_until := 1060 })] })],
        true, .silenceGate⟩ := by
  norm_num [onLlmRequest, llmCore, getGroup, getM, setM, setG, List.find?]
  decide

/-- Claim C5, counterexample: with group shutup active (shutup_until
2000, now 1000) a request from a member whose in_merging flag is set is
not consumed at all — the handler returns at the merging short-circuit —
so not every request in the group is consumed at the shutup gate. -/
theorem c5_shutup_gate_cex :
    (onLlmRequest {} {} 1000
        [("G", { gid := "G", members := [("U", { uid := "U", in_merging := true })], shutup_until := 2000 })]
        "G" "U" false).stopped = false ∧
    ((1000 : ℚ) < 2000) := by
  constructor
  · norm_num [onLlmRequest, llmCore, getGroup, getM, setM, setG, List.find?]
    decide
  · norm_num

/-- Claim C5, amended: for a request that reaches the protection gates
(sender not in an active merge session, and neither the shutup trigger
nor the AI trigger fires on this message; the insult trigger quiet so
the member state is the given one), active group shutup consumes the
request at the shutup gate regardless of the privilege of the sender;
with shutup inactive a privileged sender passes the per-user silence
gate and proceeds, while a non-privileged sender under silence is
consumed at the silence gate before the cooldown gate is ever
consulted. -/
theorem c5_shutup_gate_order (conf : LlmConf) (sc : Scores) (now : ℚ)
    (uid : String) (isAdmin : Bool) (g : Group) (m : Member)
    (hm : getM g.members uid = some m)
    (hmer : m.in_merging = false)
    (hShut : conf.shutup = 0 ∨ sc.shut ≤ conf.shutup)
    (hIns : conf.insult = 0 ∨ sc.insult ≤ conf.insult)
    (hAi : conf.ai = 0 ∨ sc.isAi ≤ conf.ai) :
    (now < g.shutup_until →
      (llmCore conf sc now uid isAdmin g).2.1 = true ∧
      (llmCore conf sc now uid isAdmin g).2.2 = .shutupGate) ∧
    (g.shutup_until ≤ now → now < m.silence_until →
      (llmCore conf sc now uid false g).2.1 = true ∧
      (llmCore conf sc now uid false g).2.2 = .silenceGate) ∧
    (g.shutup_until ≤ now →
      (conf.request_cd ≤ 0 ∨ conf.request_cd ≤ now - m.last_request) →
      (llmCore conf sc now uid true g).2.1 = false ∧
      (llmCore conf sc now uid true g).2.2 = .proceed) := by
  have hsc : ¬(conf.shutup ≠ 0 ∧ conf.shutup < sc.shut) := by
    rcases hShut with h | h
    · exact fun hc => hc.1 h
    · exact fun hc => absurd hc.2 (not_lt.mpr h)
  have hic : ¬(conf.insult ≠ 0 ∧ conf.insult < sc.insult) := by
    rcases hIns with h | h
    · exact fun hc => hc.1 h
    · exact fun hc => absurd hc.2 (not_lt.mpr h)
  have hac : ¬(conf.ai ≠ 0 ∧ conf.ai < sc.isAi) := by
    rcases hAi with h | h
    · exact fun hc => hc.1 h
    · exact fun hc => absurd hc.2 (not_lt.mpr h)
  have hnm : ¬(m.in_merging = true) := by
    rw [hmer]
    exact Bool.false_ne_true
  refine ⟨?_, ?_, ?_⟩
  · intro hsu
    unfold llmCore
    rw [hm, Option.getD_some, if_neg hnm, if_neg hsc, if_neg hic,
      if_neg hac, if_pos hsu]
    exact ⟨rfl, rfl⟩
  · intro hsu hsil
    unfold llmCore
    rw [hm, Option.getD_some, if_neg hnm, if_neg hsc, if_neg hic,
      if_neg hac, if_neg (not_lt.mpr hsu), if_pos ⟨rfl, hsil⟩]
    exact ⟨rfl, rfl⟩
  · intro hsu hcd
    have hcd2 : ¬(0 < conf.request_cd ∧ now - m.last_request < conf.request_cd) := by
      rcases hcd with h | h
      · exact fun hc => absurd hc.1 (not_lt.mpr h)
      · exact fun hc => absurd hc.2 (not_lt.mpr h)
    have hsil2 : ¬((true : Bool) = false ∧ now < m.silence_until) :=
      fun hc => Bool.false_ne_true hc.1.symm
    unfold llmCore
    rw [hm, Option.getD_some, if_neg hnm, if_neg hsc, if_neg hic,
      if_neg hac, if_neg (not_lt.mpr hsu), if_neg hsil2, if_neg hcd2]
    exact ⟨rfl, rfl⟩

/-- Witness for c5_shutup_gate_order: the three conclusions at concrete
inputs (a non-admin under active shutup; a silenced non-admin with
shutup inactive; an admin with silence set but bypassed). -/
theorem c5_shutup_gate_order_witness :
    ((llmCore {} {} 1000 "U" false
        { gid := "G", members := [("U", { uid := "U" })],
          shutup_until := 2000 }).2.1 = true ∧
      (llmCore {} {} 1000 "U" false
        { gid := "G", members := [("U", { uid := "U" })],
          shutup_until := 2000 }).2.2 = .shutupGate) ∧
    ((llmCore {} {} 1000 "U" false
        { gid := "G",
          members := [("U", { uid := "U", silence_until := 1500 })] }).2.1 =
        true ∧
      (llmCore {} {} 1000 "U" false
        { gid := "G",
          members := [("U", { uid := "U", silence_until := 1500 })] }).2.2 =
        .silenceGate) ∧
    ((llmCore {} {} 1000 "U" true
        { gid := "G",
          members := [("U", { uid := "U", silence_until := 1500 })] }).2.1 =
        false ∧
      (llmCore {} {} 1000 "U" true
        { gid := "G",
          members := [("U", { uid := "U", silence_until := 1500 })] }).2.2 =
        .proceed) := by
  refine ⟨?_, ?_, ?_⟩
  · exact (c5_shutup_gate_order {} {} 1000 "U" false
      { gid := "G", members := [("U", { uid := "U" })], shutup_until := 2000 }
      { uid := "U" } (by decide) rfl (Or.inl rfl) (Or.inl rfl)
      (Or.inl rfl)).1 (by norm_num)
  · exact ((c5_shutup_gate_order {} {} 1000 "U" false
      { gid := "G", members := [("U", { uid := "U", silence_until := 1500 })] }
      { uid := "U", silence_until := 1500 } (by decide) rfl (Or.inl rfl)
      (Or.inl rfl) (Or.inl rfl)).2.1) (by norm_num) (by norm_num)
  · exact ((c5_shutup_gate_order {} {} 1000 "U" true
      { gid := "G", members := [("U", { uid := "U", silence_until := 1500 })] }
      { uid := "U", silence_until := 1500 } (by decide) rfl (Or.inl rfl)
      (Or.inl rfl) (Or.inl rfl)).2.2) (by norm_num) (Or.inl (by norm_num))

/-- Claim C10: a request from a user whose in_merging flag is set makes
the request-level handler return at the merging short-circuit: for every
configuration and every sentiment score the event is not consumed and
the groups map is returned exactly as it was — no member or group field
(last_request included) is touched and no gate runs. -/
theorem c10_in_merging_skip (conf : LlmConf) (sc : Scores) (now : ℚ)
    (gs : List (String × Group)) (gid uid : String) (isAdmin : Bool)
    (g : Group) (m : Member)
    (hgid : gid ≠ "") (huid : uid ≠ "")
    (hfind : gs.find? (fun kv => kv.1 == gid) = some (gid, g))
    (hm : getM g.members uid = some m)
    (hmer : m.in_merging = true) :
    onLlmRequest conf sc now gs gid uid isAdmin = ⟨gs, false, .skipMerging⟩ := by
  have hne : ¬(gid = "" ∨ uid = "") := by
    rintro (h | h)
    · exact hgid h
    · exact huid h
  have hsome : (getM g.members uid).isSome = true := by rw [hm]; rfl
  unfold onLlmRequest
  rw [if_neg hne]
  simp only [getGroup, hfind, hsome, if_pos]
  unfold llmCore
  rw [hm, Option.getD_some, if_pos hmer]
  simp only [setG_self gs gid g hfind]

/-- Witness for c10_in_merging_skip at a concrete input with hostile
configuration and scores: everything is still skipped untouched. -/
theorem c10_in_merging_skip_witness :
    onLlmRequest
        { shutup := 1, insult := 1, ai := 1, silence_multiple := 9,
          request_cd := 5 }
        { shut := 2, insult := 2, isAi := 2 } 1000
        [("G", { gid := "G", members := [("U", { uid := "U", in_merging := true })] })]
        "G" "U" false =
      ⟨[("G", { gid := "G", members := [("U", { uid := "U", in_merging := true })] })],
        false, .skipMerging⟩ :=
  c10_in_merging_skip
    { shutup := 1, insult := 1, ai := 1, silence_multiple := 9,
      request_cd := 5 }
    { shut := 2, insult := 2, isAi := 2 } 1000
    [("G", { gid := "G", members := [("U", { uid := "U", in_merging := true })] })]
    "G" "U" false
    { gid := "G", members := [("U", { uid := "U", in_merging := true })] }
    { uid := "U", in_merging := true }
    (by decide) (by decide) (by decide) (by decide) rfl

/-- The second component of _extract_keywords is the committed state. -/
theorem Similarity.extractKeywords_snd (P : Similarity.SimPrims)
    (st : Similarity.SimState) (s : String) :
    (Similarity.extractKeywords P st s).2 =
      Similarity.updateTopicCache P st
        (Similarity.extractKeywords P st s).1 := rfl

/-- The vector of _tokens is built from the weight table of the state as
already committed by _extract_keywords. -/
theorem Similarity.tokens_fst (P : Similarity.SimPrims)
    (st : Similarity.SimState) (s : String) :
    (Similarity.tokens P st s).1 =
      Similarity.buildVec (Similarity.extractKeywords P st s).2.weights
        (Similarity.extractKeywords P st s).1 := rfl

/-- Pointwise reading of the weight table produced by
_update_topic_cache, phrased through the cache of the same result. -/
theorem Similarity.updateTopicCache_weights (P : Similarity.SimPrims)
    (st : Similarity.SimState) (ws : List String) (w : String) :
    (Similarity.updateTopicCache P st ws).weights w =
      if (Similarity.updateTopicCache P st ws).cache.contains w then
        max (st.weights w * (19 / 20))
          (((Similarity.updateTopicCache P st ws).cache.count w : ℚ) *
            (1 + P.mlog (Similarity.pyLen1 w)))
      else st.weights w := rfl

/-- Claim C7, counterexample: on a fresh group state the query
"哈哈 呀呀" is first committed into the cache and weights, and its
vector is then built from the updated weights: the normalized mass of
"哈哈" is 8977/22954, whereas a vector built from the pre-call
statistics (as the claim demands) would give 2/7 — the first occurrence
of a message does inflate its own term weights.  Moreover the candidate
build of cosine mutates the corpus a second time: after
cosine "哈哈 呀呀" "嘻嘻" the weight of "嘻嘻" is nonzero although it
was zero after the query build alone. -/
theorem c7_vector_prestats_cex :
    Similarity.lookupD (Similarity.tokens simPrimsC Similarity.emptyState
        "哈哈 呀呀").1 "哈哈" = 8977 / 22954 ∧
    Similarity.lookupD (Similarity.tokensPreStats simPrimsC
        Similarity.emptyState "哈哈 呀呀") "哈哈" = 2 / 7 ∧
    ((8977 : ℚ) / 22954) ≠ 2 / 7 ∧
    (Similarity.cosine simPrimsC Similarity.emptyState
        "哈哈 呀呀" "嘻嘻").2.weights "嘻嘻" = 16931 / 10000 ∧
    (Similarity.tokens simPrimsC Similarity.emptyState
        "哈哈 呀呀").2.weights "嘻嘻" = 0 ∧
    ((16931 : ℚ) / 10000) ≠ 0 := by
  have hEx : (Similarity.extractKeywords simPrimsC Similarity.emptyState
      "哈哈 呀呀").1 = ["哈哈", "呀呀"] := by decide
  have hCa : (Similarity.updateTopicCache simPrimsC Similarity.emptyState
      ["哈哈", "呀呀"]).cache = ["哈哈", "呀呀"] := by decide
  have hw1 : (Similarity.extractKeywords simPrimsC Similarity.emptyState
      "哈哈 呀呀").2.weights "哈哈" = 16931 / 10000 := by
    rw [Similarity.extractKeywords_snd, hEx,
      Similarity.updateTopicCache_weights, hCa]
    rw [if_pos (by decide)]
    norm_num [show (["哈哈", "呀呀"] : List String).count "哈哈" = 1 from
        by decide,
      show Similarity.pyLen1 "哈哈" = 2 from by decide,
      simPrimsC, Similarity.emptyState, max_def]
  have hw2 : (Similarity.extractKeywords simPrimsC Similarity.emptyState
      "哈哈 呀呀").2.weights "呀呀" = 16931 / 10000 := by
    rw [Similarity.extractKeywords_snd, hEx,
      Similarity.updateTopicCache_weights, hCa]
    rw [if_pos (by decide)]
    norm_num [show (["哈哈", "呀呀"] : List String).count "呀呀" = 1 from
        by decide,
      show Similarity.pyLen1 "呀呀" = 2 from by decide,
      simPrimsC, Similarity.emptyState, max_def]
  have hv : Similarity.lookupD (Similarity.tokens simPrimsC
      Similarity.emptyState "哈哈 呀呀").1 "哈哈" = 8977 / 22954 := by
    rw [Similarity.tokens_fst, hEx]
    simp only [Similarity.buildVec, List.foldl_cons, List.foldl_nil,
      List.tail_cons, List.zipWith_cons_cons, List.zipWith_nil_right,
      Similarity.bumpA, hw1, hw2, Similarity.lookupD, List.map_cons,
      List.map_nil, List.find?,
      show ("哈哈" ++ "呀呀" : String) = "哈哈呀呀" from by decide]
    norm_num [max_def, show ¬(("哈哈" : String) = "哈哈呀呀") from by decide,
      show ¬(("呀呀" : String) = "哈哈呀呀") from by decide]
  have hpre : Similarity.lookupD (Similarity.tokensPreStats simPrimsC
      Similarity.emptyState "哈哈 呀呀") "哈哈" = 2 / 7 := by
    rw [show Similarity.tokensPreStats simPrimsC Similarity.emptyState
        "哈哈 呀呀" =
        Similarity.buildVec Similarity.emptyState.weights ["哈哈", "呀呀"]
        from by rw [Similarity.tokensPreStats, hEx]]
    simp only [Similarity.buildVec, Similarity.emptyState, List.foldl_cons,
      List.foldl_nil, List.tail_cons, List.zipWith_cons_cons,
      List.zipWith_nil_right, Similarity.bumpA, Similarity.lookupD,
      List.map_cons, List.map_nil, List.find?,
      show ("哈哈" ++ "呀呀" : String) = "哈哈呀呀" from by decide]
    norm_num [max_def, show ¬(("哈哈" : String) = "哈哈呀呀") from by decide,
      show ¬(("呀呀" : String) = "哈哈呀呀") from by decide]
  have hw0 : (Similarity.extractKeywords simPrimsC Similarity.emptyState
      "哈哈 呀呀").2.weights "嘻嘻" = 0 := by
    rw [Similarity.extractKeywords_snd, hEx,
      Similarity.updateTopicCache_weights, hCa]
    rw [if_neg (by decide)]
    rfl
  have hEx2 : (Similarity.extractKeywords simPrimsC
      (Similarity.extractKeywords simPrimsC Similarity.emptyState
        "哈哈 呀呀").2 "嘻嘻").1 = ["嘻嘻"] := by decide
  have hCa2 : (Similarity.updateTopicCache simPrimsC
      (Similarity.extractKeywords simPrimsC Similarity.emptyState
        "哈哈 呀呀").2 ["嘻嘻"]).cache = ["哈哈", "呀呀", "嘻嘻"] := by decide
  have hwfin : (Similarity.cosine simPrimsC Similarity.emptyState
      "哈哈 呀呀" "嘻嘻").2.weights "嘻嘻" = 16931 / 10000 := by
    rw [show (Similarity.cosine simPrimsC Similarity.emptyState
        "哈哈 呀呀" "嘻嘻").2 =
        (Similarity.extractKeywords simPrimsC
          (Similarity.extractKeywords simPrimsC Similarity.emptyState
            "哈哈 呀呀").2 "嘻嘻").2 from rfl]
    rw [Similarity.extractKeywords_snd, hEx2,
      Similarity.updateTopicCache_weights, hCa2]
    rw [if_pos (by decide)]
    rw [hw0]
    norm_num [show (["哈哈", "呀呀", "嘻嘻"] : List String).count "嘻嘻" = 1
        from by decide,
      show Similarity.pyLen1 "嘻嘻" = 2 from by decide, simPrimsC, max_def]
  exact ⟨hv, hpre, by norm_num, hwfin, hw0, by norm_num⟩

/-- Claim C7, amended: a similarity call builds the query vector from
the corpus statistics as updated by the call itself — _extract_keywords
commits the words into the group state first and _tokens then reads the
updated weight table — and building the candidate vector inside cosine
performs a second update of the group state in exactly the same way. -/
theorem c7_vector_poststats (P : Similarity.SimPrims)
    (st : Similarity.SimState) (s a b : String) :
    Similarity.tokens P st s =
      (Similarity.buildVec (Similarity.extractKeywords P st s).2.weights
        (Similarity.extractKeywords P st s).1,
       (Similarity.extractKeywords P st s).2) ∧
    (Similarity.extractKeywords P st s).2 =
      Similarity.updateTopicCache P st
        (Similarity.extractKeywords P st s).1 ∧
    (Similarity.cosine P st a b).2 =
      (Similarity.tokens P (Similarity.tokens P st a).2 b).2 :=
  ⟨rfl, rfl, rfl⟩

/-- Claim C8, counterexample: on empty inputs (no tokens at all) the
score is not exactly 0 — the logistic squashing floors it at
1/(1+exp(4.8)), here with the rational stand-in for exp giving
100/12251, a positive value. -/
theorem c8_empty_score_floor_cex :
    (Similarity.cosine simPrimsC Similarity.emptyState "" "").1 =
      100 / 12251 ∧
    ((100 : ℚ) / 12251) ≠ 0 := by
  have hta : (Similarity.tokens simPrimsC Similarity.emptyState "").1 = [] := by
    rw [Similarity.tokens_fst, show (Similarity.extractKeywords simPrimsC
      Similarity.emptyState "").1 = [] from by decide]
    rfl
  have htb : (Similarity.tokens simPrimsC
      (Similarity.tokens simPrimsC Similarity.emptyState "").2 "").1 = [] := by
    rw [Similarity.tokens_fst, show (Similarity.extractKeywords simPrimsC
      (Similarity.tokens simPrimsC Similarity.emptyState "").2 "").1 = []
      from by decide]
    rfl
  refine ⟨?_, by norm_num⟩
  simp only [Similarity.cosine]
  rw [hta, htb]
  simp only [Similarity.unionKeys, List.map_nil, List.filter_nil,
    List.append_nil, List.foldl_nil]
  norm_num [simPrimsC]

/-- Any fold of the dot-product step of cosine whose left vector is
empty returns its accumulator: the left lookup is always 0, so every
step adds zero. -/
theorem Similarity.dotFold_nil_left (v2 : List (String × ℚ))
    (wts : String → ℚ) (ks : List String) (acc : ℚ) :
    List.foldl (fun acc w =>
      let x := Similarity.lookupD [] w
      let y := Similarity.lookupD v2 w
      if 0 < x && 0 < y then acc + x * y * (2 + wts w)
      else acc + x * y) acc ks = acc := by
  induction ks generalizing acc with
  | nil => rfl
  | cons k t ih =>
      rw [List.foldl_cons]
      rw [show (let x := Similarity.lookupD [] k
          let y := Similarity.lookupD v2 k
          if 0 < x && 0 < y then acc + x * y * (2 + wts k)
          else acc + x * y) = acc from by
        norm_num [Similarity.lookupD, List.find?]]
      exact ih acc

/-- Claim C8, amended: whenever the query text tokenizes to nothing
(empty string, pure punctuation, or all tokens stopworded), whatever the
candidate text, the similarity computation is total — the query vector
is empty, every dot-product contribution is zero, the query norm is
sqrt 0 = 0, and the raw-cosine denominator is floored by the positive
1e-8 guard — and the score returned is the constant logistic floor
1/(1+exp(4.8)), approximately 0.0082: a defined positive value, not
exactly 0. -/
theorem c8_empty_token_floor (P : Similarity.SimPrims)
    (st : Similarity.SimState) (a b : String)
    (ha : (Similarity.extractKeywords P st a).1 = [])
    (hsq : P.msqrt 0 = 0)
    (hexp : 0 < P.mexp (24 / 5)) :
    (Similarity.cosine P st a b).1 = 1 / (1 + P.mexp (24 / 5)) ∧
    0 < (Similarity.cosine P st a b).1 := by
  have hv1 : (Similarity.tokens P st a).1 = [] := by
    rw [Similarity.tokens_fst, ha]
    rfl
  have harg : (-8 : ℚ) * (0 - 3 / 5) = 24 / 5 := by norm_num
  have hmain : (Similarity.cosine P st a b).1 = 1 / (1 + P.mexp (24 / 5)) := by
    simp only [Similarity.cosine]
    rw [hv1]
    rw [Similarity.dotFold_nil_left]
    simp only [List.foldl_nil, hsq]
    rw [show ((0 : ℚ) * P.msqrt (List.foldl (fun a kv => a + kv.2 * kv.2) 0
        (Similarity.tokens P (Similarity.tokens P st a).2 b).1) + 1 / 100000000)
      = 1 / 100000000 from by rw [zero_mul, zero_add]]
    rw [zero_div, harg]
  refine ⟨hmain, ?_⟩
  rw [hmain]
  have h1 : (0 : ℚ) < 1 + P.mexp (24 / 5) := by linarith
  exact div_pos one_pos h1

/-- Witness for c8_empty_token_floor: the concrete stand-in primitives,
an empty query against a candidate that tokenizes to a real word — the
case the real call path produces, since retrieved bot messages are
never empty. -/
theorem c8_empty_token_floor_witness :
    (Similarity.cosine simPrimsC Similarity.emptyState "" "嘻嘻").1 =
      1 / (1 + simPrimsC.mexp (24 / 5)) ∧
    0 < (Similarity.cosine simPrimsC Similarity.emptyState "" "嘻嘻").1 :=
  c8_empty_token_floor simPrimsC Similarity.emptyState "" "嘻嘻"
    (by decide) rfl (by norm_num [simPrimsC])

end WakePro
